import Mathlib

/-!
Verification of the Astra mandatory pipeline (appayureze-cloud/aiastra).

This file shallowly embeds the components of `app/astra/` that the claims
concern — the capability agent, safety enforcer, consent manager, RAG
memory, response sanitizer and the pipeline orchestrator — as executable
Lean definitions, and proves (or refutes) the claimed properties.

Modelling conventions:
- Python dicts with fixed key sets become structures; keys that a given
  code path leaves absent become `Option` fields defaulting to `none`.
- Timestamps are natural numbers (seconds); `timedelta(days=d)` is
  `d * 86400`.
- Python floats (confidences, similarity scores) are rationals.
- The small set of fixed regular expressions in the source is embedded by
  a mini matcher (`Pat`) implementing exactly the constructs those
  patterns use: case-insensitive literal alternation, `\b`, `\s+`, `\s*`,
  `\d+`, `\w+`, with Python `re.search` / `re.sub` (leftmost,
  non-overlapping, greedy) semantics.  All alternation lists in the
  source are prefix-free, so first-alternative matching agrees with
  Python's backtracking.
- External collaborators (rate limiter, translation, model service,
  FAISS nearest-neighbour search, the persistence store) are parameters
  of the embedded functions.
-/

namespace Astra

/-! ## Association-list helpers -/

def alookup {α β : Type} [DecidableEq α] : List (α × β) → α → Option β
  | [], _ => none
  | (k, v) :: rest, a => if k = a then some v else alookup rest a

def aremove {α β : Type} [DecidableEq α] : List (α × β) → α → List (α × β)
  | [], _ => []
  | (k, v) :: rest, a =>
    if k = a then aremove rest a else (k, v) :: aremove rest a

def ainsert {α β : Type} [DecidableEq α] (l : List (α × β)) (a : α) (b : β) : List (α × β) :=
  (a, b) :: aremove l a

/-! ## Character and string utilities -/

/-- Python `\w` on the ASCII strings appearing in this code base. -/
def isWordChar (c : Char) : Bool := c.isAlphanum || c == '_'

def isDigitChar (c : Char) : Bool := c.isDigit

/-- Case-insensitive equality of a text character with a (lowercase) pattern character. -/
def lcEq (textC patC : Char) : Bool := textC.toLower == patC

/-- Python `sub in s` (plain substring containment). -/
def containsSubL (hay needle : List Char) : Bool :=
  hay.tails.any (fun t => needle.isPrefixOf t)

def containsSub (hay needle : String) : Bool := containsSubL hay.toList needle.toList

/-- Python `str.lower()` (the strings involved are ASCII). -/
def lowerL (s : List Char) : List Char := s.map Char.toLower

/-- Python `str.strip()` restricted to the whitespace that occurs here. -/
def stripL (s : List Char) : List Char :=
  ((s.dropWhile Char.isWhitespace).reverse.dropWhile Char.isWhitespace).reverse

def lit (s : String) : List Char := s.toList

/-! ## A mini matcher for the fixed regular expressions of the source

The source compiles a fixed set of patterns, all of the shape
`\b? (alt of literals) (\s+ | \s* | \d+ | \w+ | alt)* \b?` with
`re.IGNORECASE`.  `Tok` covers exactly those constructs.  Every
alternation list in the source is prefix-free, so taking the first
alternative that matches agrees with Python's left-to-right alternative
order with backtracking, and since `\s`, `\d`, `\w` classes and the
literal alternatives that follow them are disjoint, greedy maximal-munch
matching agrees with Python's greedy quantifiers. -/

inductive Tok where
  | alt (phrases : List (List Char))
  | ws
  | wsOpt
  | digits
  | word
deriving DecidableEq

/-- A pattern: optional leading `\b`, a token sequence, optional trailing `\b`. -/
structure Pat where
  lb : Bool
  toks : List Tok
  rb : Bool
deriving DecidableEq

/-- Case-insensitively drop the (lowercase) pattern phrase from the front of the text. -/
def lcDrop : List Char → List Char → Option (List Char)
  | [], s => some s
  | _, [] => none
  | p :: ps, c :: cs => if lcEq c p then lcDrop ps cs else none

/-- First alternative (in order) matching a prefix of `s`; returns it with the rest. -/
def firstAlt : List (List Char) → List Char → Option (List Char × List Char)
  | [], _ => none
  | p :: ps, s =>
    match lcDrop p s with
    | some rest => some (p, rest)
    | none => firstAlt ps s

/-- Match a token sequence at the head of `s`, tracking the first and last
consumed character (for `\b` checks; lowercasing preserves word-char-ness). -/
def matchToks : List Tok → Option Char × Option Char → List Char →
    Option (Option Char × Option Char × List Char)
  | [], (f, l), s => some (f, l, s)
  | Tok.alt ps :: ts, (f, l), s =>
    match firstAlt ps s with
    | none => none
    | some (p, rest) =>
      match p with
      | [] => matchToks ts (f, l) rest
      | _ => matchToks ts (f.or p.head?, p.getLast?) rest
  | Tok.ws :: ts, (f, l), s =>
    let n := (s.takeWhile Char.isWhitespace).length
    if n == 0 then none
    else matchToks ts (f.or s.head?, (s.take n).getLast?) (s.drop n)
  | Tok.wsOpt :: ts, (f, l), s =>
    let n := (s.takeWhile Char.isWhitespace).length
    if n == 0 then matchToks ts (f, l) s
    else matchToks ts (f.or s.head?, (s.take n).getLast?) (s.drop n)
  | Tok.digits :: ts, (f, l), s =>
    let n := (s.takeWhile isDigitChar).length
    if n == 0 then none
    else matchToks ts (f.or s.head?, (s.take n).getLast?) (s.drop n)
  | Tok.word :: ts, (f, l), s =>
    let n := (s.takeWhile isWordChar).length
    if n == 0 then none
    else matchToks ts (f.or s.head?, (s.take n).getLast?) (s.drop n)

def wordOpt : Option Char → Bool
  | none => false
  | some c => isWordChar c

/-- Try to match `p` at the current position; `prev` is the character just
before that position in the subject string.  Returns the match length.
`\b` holds iff exactly one of the two neighbouring characters is a word
character. -/
def matchPatAt (p : Pat) (prev : Option Char) (s : List Char) : Option Nat :=
  match matchToks p.toks (none, none) s with
  | none => none
  | some (f, l, rest) =>
    if p.lb && (wordOpt prev == wordOpt f) then none
    else if p.rb && (wordOpt l == wordOpt rest.head?) then none
    else some (s.length - rest.length)

/-- Python `re.search` as a Boolean: is there a match anywhere? -/
def searchFrom (p : Pat) (prev : Option Char) : List Char → Bool
  | [] => (matchPatAt p prev []).isSome
  | c :: cs => (matchPatAt p prev (c :: cs)).isSome || searchFrom p (some c) cs

def searchL (p : Pat) (s : List Char) : Bool := searchFrom p none s

/-- Python `re.sub`: leftmost non-overlapping matches, replacement not rescanned.
Fuel-structured recursion; `subAll` supplies enough fuel. -/
def subGo (p : Pat) (repl : List Char) : Nat → Option Char → List Char → List Char
  | 0, _, s => s
  | fuel + 1, prev, s =>
    match matchPatAt p prev s with
    | some n =>
      if n == 0 then
        match s with
        | [] => repl
        | c :: cs => repl ++ c :: subGo p repl fuel (some c) cs
      else repl ++ subGo p repl fuel ((s.take n).getLast?) (s.drop n)
    | none =>
      match s with
      | [] => []
      | c :: cs => c :: subGo p repl fuel (some c) cs

def subAll (p : Pat) (repl : List Char) (s : List Char) : List Char :=
  subGo p repl (s.length + 1) none s

/-! ## ResponseSanitizer (`app/astra/response_sanitizer.py`)

Embeds `ResponseSanitizer._compile_unsafe_patterns`, `_build_disclaimers`,
`_contains_diagnostic_language`, `_contains_emergency_keywords` and
`sanitize`, for a sanitizer constructed with its default
`capability_agent=None` (so the post-LLM config scan is skipped, as in
the source's `if self.capability_agent:` guard). -/

def pDiagnosis1 : Pat :=
  ⟨true, [Tok.alt [lit "you have", lit "you are suffering from", lit "diagnosed with",
    lit "this is"], Tok.ws, Tok.word], false⟩

def pDiagnosis2 : Pat :=
  ⟨true, [Tok.alt [lit "it seems like you have", lit "appears to be", lit "looks like"],
    Tok.ws, Tok.word], false⟩

def pPrescription1 : Pat :=
  ⟨true, [Tok.alt [lit "take", lit "use", lit "try"], Tok.ws, Tok.digits, Tok.wsOpt,
    Tok.alt [lit "mg", lit "ml", lit "tablets", lit "capsules"]], false⟩

def pPrescription2 : Pat :=
  ⟨true, [Tok.alt [lit "prescribe", lit "recommend taking", lit "should take"],
    Tok.ws, Tok.word], false⟩

def pTreatment1 : Pat :=
  ⟨true, [Tok.alt [lit "this will cure", lit "this treats", lit "this heals"],
    Tok.ws, Tok.word], false⟩

def pPrognosis1 : Pat :=
  ⟨true, [Tok.alt [lit "you will", lit "you should", lit "it will"], Tok.ws,
    Tok.alt [lit "get better", lit "heal", lit "recover", lit "improve"]], false⟩

/-- The category-ordered (diagnosis, prescription, treatment, prognosis)
pattern/replacement pairs of `_compile_unsafe_patterns`. -/
def sanitizerPatterns : List (Pat × String) :=
  [ (pDiagnosis1, "Please consult a doctor for proper diagnosis."),
    (pDiagnosis2, "Only a doctor can make a diagnosis."),
    (pPrescription1, "Please consult your doctor for dosage information."),
    (pPrescription2, "Please consult your doctor for prescription."),
    (pTreatment1, "Please discuss treatment options with your doctor."),
    (pPrognosis1, "Please consult your doctor about your prognosis.") ]

def diagnosticLangPatterns : List Pat :=
  [ ⟨true, [Tok.alt [lit "symptoms of", lit "signs of", lit "indicates", lit "suggests"]], true⟩,
    ⟨true, [Tok.alt [lit "condition", lit "disease", lit "disorder", lit "syndrome"]], true⟩,
    ⟨true, [Tok.alt [lit "may have", lit "might have", lit "could be"]], true⟩ ]

def emergencyKwPatterns : List Pat :=
  [ ⟨true, [Tok.alt [lit "emergency", lit "urgent", lit "critical", lit "severe"]], true⟩,
    ⟨true, [Tok.alt [lit "chest pain", lit "heart attack", lit "stroke"]], true⟩,
    ⟨true, [Tok.alt [lit "bleeding", lit "unconscious", lit "seizure"]], true⟩ ]

def medicalAdviceDisc : String :=
  "\n\n⚠️ This is not medical advice. Please consult a licensed healthcare professional."

def diagnosisDisc : String :=
  "\n\n⚠️ This is not a diagnosis. Only a licensed doctor can diagnose medical conditions."

def emergencyDisc : String :=
  "\n\n🚨 If this is an emergency, please call 108/112 immediately."

def containsDiagnosticLanguage (s : List Char) : Bool :=
  diagnosticLangPatterns.any (fun p => searchL p s)

def containsEmergencyKeywords (s : List Char) : Bool :=
  emergencyKwPatterns.any (fun p => searchL p s)

/-- `ResponseSanitizer.sanitize`.  The emergency-disclaimer test runs on the
original `response`, the other checks on the current `sanitized` text,
exactly as in the source. -/
def sanitizeL (response : List Char) (safetyRules : List String) : List Char :=
  let s1 := sanitizerPatterns.foldl
    (fun s pr => if searchL pr.1 s then subAll pr.1 pr.2.toList s else s) response
  let s2 := if safetyRules.contains "must_recommend_doctor"
               && !containsSubL s1 medicalAdviceDisc.toList
            then s1 ++ medicalAdviceDisc.toList else s1
  let s3 := if safetyRules.contains "no_diagnosis" && containsDiagnosticLanguage s2
               && !containsSubL s2 diagnosisDisc.toList
            then s2 ++ diagnosisDisc.toList else s2
  if containsEmergencyKeywords response && !containsSubL s3 emergencyDisc.toList
  then s3 ++ emergencyDisc.toList else s3

def sanitize (response : String) (safetyRules : List String) : String :=
  ⟨sanitizeL response.toList safetyRules⟩

/-! ## CapabilityAgent (`app/astra/capability_agent.py`) -/

/-- One capability entry of the configuration.  Keys a YAML entry may omit
are `Option` fields (the source reads them with `.get` and a default). -/
structure CapDef where
  intent_class : Option String := none
  triggers : List String := []
  forbidden : Bool := false
  priority : Option Nat := none
  requires_ai : Bool := false
  requires_consent : Bool := false
  rate_limit : Option String := none
  reason : Option String := none
  redirect_to : Option String := none
  response_template : Option String := none
  automation : Option String := none
  rag_context : Option String := none
  safety_rules : List String := []
deriving DecidableEq

/-- The ordered `capabilities:` mapping of the configuration file. -/
def CapConfig : Type := List (String × CapDef)

/-- Modelled from the spec: `capabilities.yaml`, loaded by
`CapabilityAgent._load_capabilities`, is not under `src/`; this concrete
configuration follows the spec's data model (§3) and component design
(§4.1, §4.2): `EMERGENCY_REDIRECT` is the CLASS_D emergency capability,
`DIAGNOSIS` / `PRESCRIPTION` / `TREATMENT_MODIFICATION` are forbidden
CLASS_C capabilities with `reason` and `redirect_to`, and
`GENERAL_WELLNESS_CHAT` is the CLASS_A default. -/
def astraCapabilities : CapConfig :=
  [ ("EMERGENCY_REDIRECT",
      { intent_class := some "CLASS_D", priority := some 0,
        response_template := some
          "This sounds like a medical emergency. Please call 108/112 or go to the nearest hospital immediately." }),
    ("DIAGNOSIS",
      { intent_class := some "CLASS_C", forbidden := true, priority := some 1,
        triggers := ["diagnose me", "what disease do i have"],
        reason := some "Astra cannot diagnose medical conditions.",
        redirect_to := some "APPOINTMENT_BOOKING" }),
    ("PRESCRIPTION",
      { intent_class := some "CLASS_C", forbidden := true, priority := some 1,
        triggers := ["prescribe", "prescription for"],
        reason := some "Astra cannot prescribe medicines.",
        redirect_to := some "APPOINTMENT_BOOKING" }),
    ("TREATMENT_MODIFICATION",
      { intent_class := some "CLASS_C", forbidden := true, priority := some 1,
        triggers := ["change my dosage", "increase my dose"],
        reason := some "Astra cannot modify treatments.",
        redirect_to := some "APPOINTMENT_BOOKING" }),
    ("APPOINTMENT_BOOKING",
      { intent_class := some "CLASS_A", priority := some 2,
        triggers := ["book appointment", "see a doctor"],
        requires_consent := true,
        automation := some "existing_appointment_system" }),
    ("AYURVEDA_EDUCATION",
      { intent_class := some "CLASS_B_PLUS", priority := some 2,
        triggers := ["what is a dosha", "explain ayurveda"],
        requires_ai := true,
        safety_rules := ["no_diagnosis", "must_recommend_doctor"] }),
    ("GENERAL_WELLNESS_CHAT",
      { intent_class := some "CLASS_A", priority := some 3,
        requires_ai := true,
        safety_rules := ["no_diagnosis", "no_prescription", "must_recommend_doctor"] }) ]

/-- The fixed emergency keyword list of `CapabilityAgent._is_emergency`. -/
def emergencyKeywords : List String :=
  ["emergency", "urgent", "heart attack", "chest pain",
   "can\x27t breathe", "cannot breathe", "breathlessness",
   "bleeding", "severe bleeding", "unconscious", "loss of consciousness",
   "seizure", "stroke", "sudden paralysis", "severe pain",
   "high fever", "suicidal", "self harm", "help me"]

/-- `CapabilityAgent._is_emergency`: plain substring containment. -/
def isEmergencyText (text : List Char) : Bool :=
  emergencyKeywords.any (fun k => containsSubL text k.toList)

/-- The compiled trigger pattern `\b re.escape(trigger) \b` with IGNORECASE. -/
def triggerPat (t : String) : Pat := ⟨true, [Tok.alt [lowerL t.toList]], true⟩

/-- The result dictionary of `identify_capability`. -/
structure CapResult where
  capability : String
  intent_class : String
  confidence : ℚ
  matched_trigger : String
  requires_ai : Bool := false
  requires_consent : Bool := false
  rate_limit : String := "default"
  forbidden : Bool := false
  reason : Option String := none
  redirect_to : Option String := none
  priority : Nat
  definition : CapDef
deriving DecidableEq

/-- `CapabilityAgent._check_forbidden` for a single forbidden capability:
first trigger pattern (in order) that matches. -/
def forbiddenHit (capName : String) (d : CapDef) (text : List Char) : Option CapResult :=
  match d.triggers.find? (fun t => searchL (triggerPat t) text) with
  | none => none
  | some t => some
      { capability := capName, intent_class := d.intent_class.getD "CLASS_C",
        confidence := 1, matched_trigger := t, forbidden := true,
        reason := some (d.reason.getD "This action is not allowed"),
        redirect_to := some (d.redirect_to.getD "APPOINTMENT_BOOKING"),
        priority := d.priority.getD 1, definition := d }

/-- `CapabilityAgent._check_forbidden`: scan forbidden capabilities in
configuration order. -/
def checkForbidden : CapConfig → List Char → Option CapResult
  | [], _ => none
  | (name, d) :: rest, text =>
    if d.forbidden then
      match forbiddenHit name d text with
      | some r => some r
      | none => checkForbidden rest text
    else checkForbidden rest text

/-- `CapabilityAgent._match_triggers`: one entry per matching trigger of
every non-forbidden capability, confidence fixed at 0.9. -/
def triggerMatches (cfg : CapConfig) (text : List Char) : List CapResult :=
  (cfg.map (fun nd =>
    if nd.2.forbidden then []
    else (nd.2.triggers.filter (fun t => searchL (triggerPat t) text)).map (fun t =>
      { capability := nd.1, intent_class := nd.2.intent_class.getD "CLASS_A",
        confidence := 9/10, matched_trigger := t,
        requires_ai := nd.2.requires_ai, requires_consent := nd.2.requires_consent,
        rate_limit := nd.2.rate_limit.getD "default", forbidden := false,
        priority := nd.2.priority.getD 3, definition := nd.2 }))).flatten

/-- Python `min(matches, key=lambda x: (x['priority'], -x['confidence']))`:
first element with the lexicographically least key. -/
def keyLt (a b : CapResult) : Bool :=
  a.priority < b.priority || (a.priority == b.priority && b.confidence < a.confidence)

def selectBest : List CapResult → Option CapResult
  | [] => none
  | m :: ms => some (ms.foldl (fun best x => if keyLt x best then x else best) m)

/-- `CapabilityAgent._build_result` (the configuration always contains the
two capabilities this is called with). -/
def buildResult (cfg : CapConfig) (capability : String) (confidence : ℚ)
    (trigger : String) : CapResult :=
  let d := (alookup cfg capability).getD {}
  { capability, intent_class := d.intent_class.getD "CLASS_A", confidence,
    matched_trigger := trigger, requires_ai := d.requires_ai,
    requires_consent := d.requires_consent, rate_limit := d.rate_limit.getD "default",
    forbidden := d.forbidden, priority := d.priority.getD 3, definition := d }

/-- `CapabilityAgent.identify_capability`: emergency scan, then forbidden
scan, then trigger matching, then the CLASS_A default. -/
def identify_capability (cfg : CapConfig) (user_input : String) : CapResult :=
  let normalized := stripL (lowerL user_input.toList)
  if isEmergencyText normalized then
    buildResult cfg "EMERGENCY_REDIRECT" 1 "emergency"
  else
    match checkForbidden cfg normalized with
    | some r => r
    | none =>
      match selectBest (triggerMatches cfg normalized) with
      | some m => m
      | none => buildResult cfg "GENERAL_WELLNESS_CHAT" (7/10) "default"

/-! ## SafetyEnforcer (`app/astra/safety_enforcer.py`) -/

/-- One entry of the configuration's `refusal_library`; `messages` is
`none` when the YAML entry has no `messages` key. -/
structure RefusalData where
  messages : Option (List String) := none
  refusal_code : Option String := none
  handoff : Bool := false
  hard_stop : Bool := false
deriving DecidableEq

structure RefusalInfo where
  message : String
  refusal_code : String
  handoff : Bool
  hard_stop : Bool
deriving DecidableEq

/-- `refusal_library` keyed by intent class, then by refusal key. -/
def RefusalLib : Type := List (String × List (String × RefusalData))

/-- The hard-coded `default_refusal` of `_get_refusal_info`. -/
def defaultRefusal : RefusalInfo :=
  ⟨"I cannot help with medical decisions. Please consult a qualified Ayurvedic doctor.",
   "REF_GEN_001", true, false⟩

/-- The `cap_to_refusal` mapping of `_get_refusal_info`. -/
def capToRefusal : String → Option String
  | "DIAGNOSIS" => some "DIAGNOSIS_CONFIRMATION"
  | "PRESCRIPTION" => some "MEDICINE_REQUEST"
  | "TREATMENT_MODIFICATION" => some "DOSAGE_CHANGE"
  | "EMERGENCY_REDIRECT" => some "EMERGENCY"
  | _ => none

/-- `random.choice` modelled by an arbitrary index `choose` (the source
raises on an empty candidate list; here the default message is returned,
a path no claim depends on). -/
def pickMessage (choose : Nat) (msgs : List String) : String :=
  (msgs.get? (choose % msgs.length)).getD defaultRefusal.message

/-- The refusal-entry resolution of `_get_refusal_info`: the entry keyed by
(intent class, capability-mapped key), then for CLASS_D the class's
`EMERGENCY` entry. -/
def resolveRefusalData (lib : RefusalLib) (ic cap : String) : Option RefusalData :=
  let classRefusals := (alookup lib ic).getD []
  match (capToRefusal cap).bind (fun k => alookup classRefusals k) with
  | some d => some d
  | none => if ic == "CLASS_D" then alookup classRefusals "EMERGENCY" else none

/-- `SafetyEnforcer._get_refusal_info`. -/
def getRefusalInfo (lib : RefusalLib) (choose : Nat) (ic cap : String) : RefusalInfo :=
  match resolveRefusalData lib ic cap with
  | some d =>
    let msgs := d.messages.getD [defaultRefusal.message]
    { message := pickMessage choose msgs,
      refusal_code := d.refusal_code.getD "REF_UNKNOWN",
      handoff := d.handoff, hard_stop := d.hard_stop }
  | none => defaultRefusal

/-- One entry of the configuration's `safety_rules` section: compiled
patterns (paired with their source text, for `blocked_patterns`) and the
configured replacement message. -/
structure SafetyRuleDef where
  patterns : List (Pat × String) := []
  replacement : Option String := none
deriving DecidableEq

structure SafetyResult where
  safe : Bool
  violations : List String
  message : String
  blocked_patterns : List String
  intent_class : String
  handoff : Bool
  hard_stop : Bool
  refusal_code : String
deriving DecidableEq

/-- `SafetyEnforcer.enforce`.  `rules` is the `safety_rules` configuration,
`lib` the refusal library, `choose` the `random.choice` index, `cfg` the
capability configuration consulted for the applicable rules. -/
def enforce (rules : List (String × SafetyRuleDef)) (lib : RefusalLib) (choose : Nat)
    (cfg : CapConfig) (text : String) (capability : String)
    (intent_class : String) : SafetyResult :=
  if intent_class == "CLASS_C" || intent_class == "CLASS_D" then
    let ri := getRefusalInfo lib choose intent_class capability
    { safe := false, violations := [intent_class], message := ri.message,
      blocked_patterns := [], intent_class, handoff := ri.handoff,
      hard_stop := ri.hard_stop, refusal_code := ri.refusal_code }
  else
    let applicable : List String := match alookup cfg capability with
      | none => rules.map (fun r => r.1)
      | some d => d.safety_rules
    let hits : List (String × String) := applicable.foldl (fun acc rn =>
      match alookup rules rn with
      | none => acc
      | some rd =>
        acc ++ (rd.patterns.filter (fun pp => searchL pp.1 text.toList)).map
          (fun pp => (rn, pp.2))) []
    match hits with
    | [] =>
      { safe := true, violations := [], message := "", blocked_patterns := [],
        intent_class, handoff := false, hard_stop := false, refusal_code := "" }
    | (rn, _) :: _ =>
      let repl := ((alookup rules rn).bind (fun rd => rd.replacement)).getD
        "I cannot provide this information. Please consult a licensed healthcare professional."
      { safe := false, violations := hits.map (fun h => h.1), message := repl,
        blocked_patterns := hits.map (fun h => h.2), intent_class,
        handoff := false, hard_stop := false, refusal_code := "SAFETY_RULE_VIOLATION" }

/-- Modelled from the spec: the `refusal_library` section of the missing
`capabilities.yaml` (spec §4.2: entries keyed by intent class and refusal
key, each with candidate messages, a refusal code, handoff and hard-stop
flags), used to instantiate witnesses. -/
def astraRefusalLibrary : RefusalLib :=
  [ ("CLASS_C",
      [ ("DIAGNOSIS_CONFIRMATION",
          { messages := some
              ["I cannot confirm a diagnosis. Please consult a qualified Ayurvedic doctor."],
            refusal_code := some "REF_C_DIAG_001", handoff := true, hard_stop := false }),
        ("MEDICINE_REQUEST",
          { messages := some
              ["I cannot suggest medicines. Please consult a qualified Ayurvedic doctor."],
            refusal_code := some "REF_C_MED_001", handoff := true, hard_stop := false }),
        ("DOSAGE_CHANGE",
          { messages := some
              ["I cannot change dosages. Please consult your Ayurvedic doctor."],
            refusal_code := some "REF_C_DOSE_001", handoff := true, hard_stop := false }) ]),
    ("CLASS_D",
      [ ("EMERGENCY",
          { messages := some
              ["This sounds like a medical emergency. Please call 108/112 or reach the nearest hospital immediately."],
            refusal_code := some "REF_D_EMERG_001", handoff := true, hard_stop := true }) ]) ]

/-! ## ConsentManager (`app/astra/consent_manager.py`)

Timestamps are naturals; `datetime.utcnow()` becomes an explicit `now`
argument and `timedelta(days=d)` is `d * 86400`. -/

/-- A persisted consent record (the dictionary shape of the store). -/
structure CRecord where
  id : Option String := none
  granted_at : Option Nat := none
  expires_at : Option Nat := none
  revoked_at : Option Nat := none
  is_active : Bool := true
deriving DecidableEq

/-- The result dictionary of `verify_consent` / `verify_astra_consent`;
statuses are the `ConsentStatus` enum values. -/
structure CResult where
  granted : Bool
  consent_id : Option String := none
  granted_at : Option Nat := none
  expires_at : Option Nat := none
  purpose : String
  revocable : Bool := true
  status : String
  message : String := ""
deriving DecidableEq

/-- `ConsentManager._is_expired`. -/
def isExpiredAt (expires_at : Option Nat) (now : Nat) : Bool :=
  match expires_at with
  | none => false
  | some t => decide (now > t)

/-- The in-memory cache key `f"{user_id}:{profile_id}:{purpose}"`. -/
def ckey (user_id profile_id purpose : String) : String :=
  user_id ++ ":" ++ profile_id ++ ":" ++ purpose

def ConsentCache : Type := List (String × CResult)

/-- The persistence-store read interface (`_get_consent_from_db`),
abstracted over its host-specific implementation. -/
def DbLookup : Type := String → String → String → Option CRecord

/-- `ConsentManager.verify_astra_consent`: cache (trusted only while
unexpired), then the store; a revoked or expired record refuses with the
corresponding status; a valid record is cached. -/
def verify_astra_consent (db : DbLookup) (cache : ConsentCache) (now : Nat)
    (user_id profile_id : String) : CResult × ConsentCache :=
  let purpose := "astra_usage"
  let key := ckey user_id profile_id purpose
  let fromDb : CResult × ConsentCache :=
    match db user_id profile_id purpose with
    | none =>
        ({ granted := false, purpose, status := "not_requested",
           message := "Astra is a wellness and Ayurvedic knowledge companion. It does not provide medical diagnosis or treatment. All medical decisions must be taken by a qualified Ayurvedic doctor. Please grant consent to Astra\x27s terms to continue." },
         cache)
    | some r =>
        if r.revoked_at.isSome || isExpiredAt r.expires_at now then
          ({ granted := false, purpose,
             status := if r.revoked_at.isSome then "revoked" else "expired",
             message := "Your Astra usage consent has expired or been revoked. Please re-grant consent to continue." },
           cache)
        else
          let res : CResult :=
            { granted := true, consent_id := r.id, granted_at := r.granted_at,
              expires_at := r.expires_at, purpose, status := "granted",
              message := "Astra usage consent is valid" }
          (res, ainsert cache key res)
  match alookup cache key with
  | some cached => if !isExpiredAt cached.expires_at now then (cached, cache) else fromDb
  | none => fromDb

/-- `ConsentManager._map_capability_to_purpose`. -/
def map_capability_to_purpose : String → Option String
  | "DOCUMENT_INTERPRETATION" => some "document_upload"
  | "SYMPTOM_DOCUMENTATION" => some "rag_memory_storage"
  | "MEDICATION_REMINDER_CHAT" => some "rag_memory_storage"
  | "HEALTH_TIMELINE" => some "health_timeline_access"
  | "APPOINTMENT_BOOKING" => some "telemedicine_consultation"
  | _ => none

/-- `ConsentManager.verify_consent`: mandatory `astra_usage` first (any
failure short-circuits), capability→purpose mapping (no mapping: granted
on `astra_usage` alone), then cache / store with the not-found → revoked
→ expired → granted evaluation order, caching a granted result. -/
def verify_consent (db : DbLookup) (cache : ConsentCache) (now : Nat)
    (user_id profile_id capability : String) (purposeArg : Option String) :
    CResult × ConsentCache :=
  let astraStep := verify_astra_consent db cache now user_id profile_id
  let astra := astraStep.1
  let cache1 := astraStep.2
  if !astra.granted then (astra, cache1)
  else
    match purposeArg.or (map_capability_to_purpose capability) with
    | none =>
        ({ granted := true, consent_id := astra.consent_id, granted_at := astra.granted_at,
           expires_at := astra.expires_at, purpose := "astra_usage", status := "granted",
           message := "Astra usage consent is valid" }, cache1)
    | some purpose =>
      let key := ckey user_id profile_id purpose
      let fromDb : CResult × ConsentCache :=
        match db user_id profile_id purpose with
        | none =>
            ({ granted := false, purpose, status := "not_requested",
               message := "Purpose-specific consent required for " ++ purpose ++ ". Please grant consent in your profile settings." },
             cache1)
        | some r =>
          if r.revoked_at.isSome then
            ({ granted := false, consent_id := r.id, granted_at := r.granted_at,
               expires_at := r.expires_at, purpose, status := "revoked",
               message := "Consent has been revoked. Please grant consent again if needed." },
             cache1)
          else if isExpiredAt r.expires_at now then
            ({ granted := false, consent_id := r.id, granted_at := r.granted_at,
               expires_at := r.expires_at, purpose, status := "expired",
               message := "Consent has expired. Please renew consent." },
             cache1)
          else
            let res : CResult :=
              { granted := true, consent_id := r.id, granted_at := r.granted_at,
                expires_at := r.expires_at, purpose, status := "granted",
                message := "Consent is active and valid" }
            (res, ainsert cache1 key res)
      match alookup cache1 key with
      | some cached => if !isExpiredAt cached.expires_at now then (cached, cache1) else fromDb
      | none => fromDb

/-- Modelled from the spec: the consent persistence store.  The store's
implementation (`_get_consent_from_db` / `_save_consent_to_db` /
`_revoke_consent_in_db` bodies) is a host-database placeholder in the
source; per spec §3/§6 it is a keyed map with (user_id, profile_id,
purpose) as the identity key, records created on grant, re-created on
re-grant, and mutated only by revoke (which sets `revoked_at`). -/
def Db : Type := List ((String × String × String) × CRecord)

/-- Modelled from the spec: keyed lookup in the persistence store. -/
def dbGet (db : Db) : DbLookup := fun u p purpose => alookup db (u, p, purpose)

/-- Modelled from the spec: keyed insert, replacing any previous record
for the same (user, profile, purpose). -/
def dbInsert (db : Db) (k : String × String × String) (r : CRecord) : Db :=
  ainsert db k r

/-- Modelled from the spec: revoke mutates the keyed record, setting
`revoked_at` (and the source's commented update also clears `is_active`);
reports whether a record was found. -/
def dbRevoke (db : Db) (k : String × String × String) (now : Nat) : Db × Bool :=
  match alookup db k with
  | none => (db, false)
  | some r => (ainsert db k { r with revoked_at := some now, is_active := false }, true)

structure GrantResult where
  success : Bool
  consent_id : Option String := none
  granted_at : Option Nat := none
  expires_at : Option Nat := none
  message : String
deriving DecidableEq

/-- `ConsentManager.grant_consent` over the modelled store:
`granted_at = now`, `expires_at = now + duration_days`, cache entry for
the exact (user, profile, purpose) invalidated. -/
def grant_consent (db : Db) (cache : ConsentCache) (now : Nat)
    (user_id profile_id purpose : String) (duration_days : Nat) :
    GrantResult × Db × ConsentCache :=
  let expires_at := now + duration_days * 86400
  let cid := "consent:" ++ ckey user_id profile_id purpose
  let r : CRecord :=
    { id := some cid, granted_at := some now, expires_at := some expires_at,
      revoked_at := none, is_active := true }
  let db1 := dbInsert db (user_id, profile_id, purpose) r
  let cache1 := aremove cache (ckey user_id profile_id purpose)
  ({ success := true, consent_id := some cid, granted_at := some now,
     expires_at := some expires_at,
     message := "Consent granted for " ++ purpose }, db1, cache1)

/-- `ConsentManager.revoke_consent` over the modelled store: sets
`revoked_at = now` and invalidates the cache entry on success. -/
def revoke_consent (db : Db) (cache : ConsentCache) (now : Nat)
    (user_id profile_id purpose : String) : Bool × Db × ConsentCache :=
  match dbRevoke db (user_id, profile_id, purpose) now with
  | (db1, true) => (true, db1, aremove cache (ckey user_id profile_id purpose))
  | (db1, false) => (false, db1, cache)

/-! ## RAGMemory (`app/astra/rag_memory.py`)

The FAISS index is external; its per-profile vector store is modelled by
a vector count, and a nearest-neighbour call's raw output — the
`(distances, indices)` rows — is a parameter of the search.  L2
distances and similarity scores are rationals. -/

def allowedMemoryTypes : List String :=
  ["chat_history_summary", "user_preferences", "doctor_instructions",
   "reminders", "user_stated_goals"]

def forbiddenMemoryTypes : List String :=
  ["diagnosis_progress", "treatment_effectiveness", "emotional_dependency",
   "mental_health_inference"]

/-- `RAGMemory._is_allowed_memory_type`. -/
def is_allowed_memory_type (memory_type : String) : Bool :=
  if forbiddenMemoryTypes.contains memory_type then false
  else allowedMemoryTypes.contains memory_type

/-- The literal case-insensitive diagnosis/effectiveness patterns of
`RAGMemory._sanitize_content`, applied in order. -/
def redactionPatterns : List Pat :=
  ["diagnosed with", "you have", "suffering from", "condition is",
   "treatment is working", "medicine is effective", "getting better",
   "healing progress"].map (fun s => (⟨false, [Tok.alt [lit s]], false⟩ : Pat))

/-- `RAGMemory._sanitize_content`. -/
def sanitize_content (content : List Char) : List Char :=
  redactionPatterns.foldl (fun s p => subAll p (lit "[REDACTED]") s) content

/-- The per-vector metadata entry written by `_store_in_faiss`. -/
structure MemMeta where
  memory_id : String
  memory_type : String
  content : String
  created_at : Nat
  expires_at : Nat
deriving DecidableEq

/-- The memory system's mutable state: per-profile vector counts
(`IndexFlatL2.ntotal`) and per-profile metadata keyed by vector id. -/
structure RAGState where
  indexes : List (String × Nat) := []
  metadata : List (String × List (Int × MemMeta)) := []
deriving DecidableEq

structure StoreResult where
  success : Bool
  memory_id : Option String
  memory_type : String
  expires_at : Option Nat
  message : String
deriving DecidableEq

/-- `RAGMemory.store_memory` (FAISS available, embedding external).  The
memory id is the sha256 input `profile:type:content:timestamp` (the hash
itself is an external primitive and is modelled by its injective input). -/
def store_memory (st : RAGState) (now : Nat) (profile_id memory_type content : String)
    (ttl_days : Nat) : StoreResult × RAGState :=
  if !is_allowed_memory_type memory_type then
    ({ success := false, memory_id := none, memory_type, expires_at := none,
       message := "Memory type \x27" ++ memory_type ++ "\x27 is not allowed" }, st)
  else
    let sc : String := ⟨sanitize_content content.toList⟩
    let mid := profile_id ++ ":" ++ memory_type ++ ":" ++ sc ++ ":" ++ toString now
    let expires := now + ttl_days * 86400
    let n := (alookup st.indexes profile_id).getD 0
    let meta : MemMeta :=
      { memory_id := mid, memory_type, content := sc, created_at := now,
        expires_at := expires }
    let profMeta := (alookup st.metadata profile_id).getD []
    let st1 : RAGState :=
      { indexes := ainsert st.indexes profile_id (n + 1),
        metadata := ainsert st.metadata profile_id (ainsert profMeta (Int.ofNat n) meta) }
    ({ success := true, memory_id := some mid, memory_type,
       expires_at := some expires, message := "Memory stored successfully" }, st1)

structure SearchHit where
  content : String
  similarity : ℚ
  memory_id : String
deriving DecidableEq

/-- `RAGMemory._search_faiss`: given the raw index output `searchOut`
(distance/index rows), keep — in index return order — the hits with a
real index (`≠ -1`), similarity `1/(1+d)` at least the threshold,
metadata present for this profile, matching memory type, and not yet
expired.  (A missing profile metadata map makes the source return `[]`
via its exception handler; per-row lookup failure yields the same.) -/
def search_faiss (st : RAGState) (profile_id : String) (searchOut : List (ℚ × Int))
    (memory_type : String) (similarity_threshold : ℚ) (now : Nat) : List SearchHit :=
  match alookup st.indexes profile_id with
  | none => []
  | some _ =>
    let profMeta := (alookup st.metadata profile_id).getD []
    searchOut.filterMap (fun di =>
      if di.2 == -1 then none
      else
        let sim := 1 / (1 + di.1)
        if sim < similarity_threshold then none
        else match alookup profMeta di.2 with
          | none => none
          | some m =>
            if m.memory_type ≠ memory_type then none
            else if now > m.expires_at then none
            else some { content := m.content, similarity := sim, memory_id := m.memory_id })

/-- `RAGMemory.retrieve` (FAISS available): disallowed context types are
rejected before any search; surviving contents are joined by blank
lines; no survivor yields `None`. -/
def retrieve (st : RAGState) (searchOut : List (ℚ × Int))
    (context_type profile_id : String) (similarity_threshold : ℚ) (now : Nat) :
    Option String :=
  if !is_allowed_memory_type context_type then none
  else
    let results := search_faiss st profile_id searchOut context_type similarity_threshold now
    if results.isEmpty then none
    else some (String.intercalate "\n\n" (results.map (fun r => r.content)))

/-! ## AstraPipeline (`app/astra/pipeline.py`)

`process` is embedded over an environment of collaborator outcomes: each
component call is a function of the arguments the orchestrator passes it,
returning either a value or a raised exception (`Except.error`).  The
self-catching helpers (`_check_rate_limit`, `_detect_language`,
`_normalize_to_english`, `_localize_to_language`) fold their handlers in;
all other steps raise to the orchestrator's `try`.  `_save_audit_log`
never raises (it guards and catches internally) and returns `auditId`;
`process` additionally returns how many times it was called and whether
`identify_capability` was invoked. -/

structure RateCheck where
  allowed : Bool
  retry_after : Option Nat := none
deriving DecidableEq

structure RulesResult where
  allowed : Bool
  violations : List String := []
  message : String := ""
  required_actions : List String := []
  boundary_statement : String := ""
deriving DecidableEq

structure TranslationSvc where
  detectOut : Except String String
  translateOut : String → String → String → Except String String

structure PipelineEnv where
  rateLimiter : Option (Except String RateCheck)
  translation : Option TranslationSvc
  identifyOut : String → Except String CapResult
  safetyOut : String → String → String → Except String SafetyResult
  rulesOut : String → String → String → Except String RulesResult
  consentOut : String → String → String → Except String CResult
  ragOut : String → String → String → Except String (Option String)
  emotionOut : String → Except String String
  toneOut : String → String → Except String String
  routeOut : CapResult → String → Option String → String → Except String String
  sanitizeOut : String → List String → Except String String
  applyToneOut : String → String → Except String String
  auditId : Option String
  handoffCta : String

structure PMetadata where
  requires_ai : Bool := false
  safety_enforced : Bool := false
  consent_verified : Bool := false
  rag_context_used : Bool := false
  forbidden : Bool := false
  intent_class : String := ""
  doctor_handoff : Bool := false
deriving DecidableEq

structure PResponse where
  response : String
  language : String
  capability : String
  intent_class : Option String := none
  emotion : Option String := none
  tone : Option String := none
  audit_log_id : Option String := none
  rate_limit_exceeded : Bool := false
  safety_blocked : Bool := false
  handoff_triggered : Bool := false
  refusal_code : Option String := none
  rules_blocked : Bool := false
  consent_required : Bool := false
  purpose : Option String := none
  error : Option String := none
  metadata : Option PMetadata := none
deriving DecidableEq

/-- `AstraPipeline._check_rate_limit`: no limiter or a raising limiter
both fail open. -/
def rateOutcome (env : PipelineEnv) : RateCheck :=
  match env.rateLimiter with
  | none => { allowed := true }
  | some (Except.error _) => { allowed := true }
  | some (Except.ok rc) => rc

/-- `AstraPipeline._detect_language`: no service or a raising service
both default to English. -/
def detectOutcome (env : PipelineEnv) : String :=
  match env.translation with
  | none => "en"
  | some t =>
    match t.detectOut with
    | Except.ok l => l
    | Except.error _ => "en"

/-- Step 3: a caller-supplied language wins unless falsy (empty). -/
def detectedLanguage (env : PipelineEnv) (input_language : Option String) : String :=
  match input_language with
  | some l => if l == "" then detectOutcome env else l
  | none => detectOutcome env

/-- `AstraPipeline._normalize_to_english` (step 4), self-catching. -/
def normalizeOutcome (env : PipelineEnv) (text lang : String) : String :=
  if lang != "en" then
    match env.translation with
    | none => text
    | some t =>
      match t.translateOut text lang "en" with
      | Except.ok r => r
      | Except.error _ => text
  else text

/-- `AstraPipeline._localize_to_language`, self-catching. -/
def localizeText (env : PipelineEnv) (text target : String) : String :=
  match env.translation with
  | none => text
  | some t =>
    match t.translateOut text "en" target with
    | Except.ok r => r
    | Except.error _ => text

def apology : String :=
  "I apologize, but I encountered an issue. Please try again or contact support."

/-- The `except` handler's fallback payload (the audit dict never holds an
`"id"` key, so `audit_log.get("id")` is always `None`). -/
def errorResponse (e lang : String) : PResponse :=
  { response := apology, language := lang, capability := "ERROR",
    audit_log_id := none, error := some e }

/-- `AstraPipeline._build_rate_limit_response`. -/
def rateLimitResponse (env : PipelineEnv) (rc : RateCheck) : PResponse :=
  { response := "You\x27ve reached your usage limit. Please try again in "
      ++ toString (rc.retry_after.getD 60) ++ " seconds.",
    language := "en", capability := "RATE_LIMITED", audit_log_id := env.auditId,
    rate_limit_exceeded := true }

/-- `AstraPipeline._build_safety_blocked_response`. -/
def safetyBlockedResponse (env : PipelineEnv) (sc : SafetyResult) (lang : String) :
    PResponse :=
  let msg0 := if lang != "en" then localizeText env sc.message lang else sc.message
  let msg := if sc.handoff then
      let cta := if lang != "en" then localizeText env env.handoffCta lang
                 else env.handoffCta
      msg0 ++ "\n\n" ++ cta
    else msg0
  { response := msg, language := lang, capability := "SAFETY_BLOCKED",
    audit_log_id := env.auditId, safety_blocked := true,
    handoff_triggered := sc.handoff, refusal_code := some sc.refusal_code }

/-- `AstraPipeline._build_rules_blocked_response`. -/
def rulesBlockedResponse (env : PipelineEnv) (ru : RulesResult) (lang : String) :
    PResponse :=
  let msg := if lang != "en" then localizeText env ru.message lang else ru.message
  { response := msg, language := lang, capability := "RULES_BLOCKED",
    audit_log_id := env.auditId, rules_blocked := true }

/-- `AstraPipeline._build_consent_required_response`. -/
def consentRequiredResponse (env : PipelineEnv) (cc : CResult) (lang : String) :
    PResponse :=
  let msg := if lang != "en" then localizeText env cc.message lang else cc.message
  { response := msg, language := lang, capability := "CONSENT_REQUIRED",
    audit_log_id := env.auditId, consent_required := true, purpose := some cc.purpose }

/-- Python truthiness of the optional RAG context string. -/
def optTruthy : Option String → Bool
  | none => false
  | some s => s != ""

/-- `AstraPipeline.process`.  Returns the response, the number of
`_save_audit_log` calls performed before returning, and whether
`identify_capability` was invoked. -/
def process (env : PipelineEnv) (user_input user_id profile_id : String)
    (input_language : Option String) : PResponse × Nat × Bool :=
  let rc := rateOutcome env
  if !rc.allowed then (rateLimitResponse env rc, 1, false)
  else
    let lang := detectedLanguage env input_language
    let norm := normalizeOutcome env user_input lang
    match env.identifyOut norm with
    | Except.error e => (errorResponse e lang, 1, true)
    | Except.ok capr =>
      match env.safetyOut norm capr.capability capr.intent_class with
      | Except.error e => (errorResponse e lang, 1, true)
      | Except.ok sc =>
        if !sc.safe then (safetyBlockedResponse env sc lang, 1, true)
        else match env.rulesOut capr.capability norm capr.intent_class with
        | Except.error e => (errorResponse e lang, 1, true)
        | Except.ok ru =>
          if !ru.allowed then (rulesBlockedResponse env ru lang, 1, true)
          else match env.consentOut user_id profile_id capr.capability with
          | Except.error e => (errorResponse e lang, 1, true)
          | Except.ok cc =>
            if !cc.granted then (consentRequiredResponse env cc lang, 1, true)
            else
              match (match capr.definition.rag_context with
                     | some ctx => env.ragOut norm ctx profile_id
                     | none => Except.ok none) with
              | Except.error e => (errorResponse e lang, 1, true)
              | Except.ok ragCtx =>
                match env.emotionOut norm with
                | Except.error e => (errorResponse e lang, 1, true)
                | Except.ok emotion =>
                  match env.toneOut emotion capr.capability with
                  | Except.error e => (errorResponse e lang, 1, true)
                  | Except.ok tone =>
                    match env.routeOut capr norm ragCtx tone with
                    | Except.error e => (errorResponse e lang, 1, true)
                    | Except.ok routed =>
                      match env.sanitizeOut routed capr.definition.safety_rules with
                      | Except.error e => (errorResponse e lang, 1, true)
                      | Except.ok sanitized =>
                        let withBoundary :=
                          if ru.boundary_statement != ""
                             && !containsSub sanitized ru.boundary_statement
                          then sanitized ++ "\n\n" ++ ru.boundary_statement
                          else sanitized
                        match env.applyToneOut withBoundary tone with
                        | Except.error e => (errorResponse e lang, 1, true)
                        | Except.ok emotional =>
                          let localized := if lang != "en"
                            then localizeText env emotional lang else emotional
                          ({ response := localized, language := lang,
                             capability := capr.capability,
                             intent_class := some capr.intent_class,
                             emotion := some emotion, tone := some tone,
                             audit_log_id := env.auditId,
                             metadata := some
                               { requires_ai := capr.requires_ai,
                                 safety_enforced := true,
                                 consent_verified := cc.granted,
                                 rag_context_used := optTruthy ragCtx,
                                 forbidden := capr.forbidden,
                                 intent_class := capr.intent_class,
                                 doctor_handoff := false } }, 1, true)

/-! ## Concrete instantiations used by witnesses -/

/-- `_get_consent_from_db` when the manager holds no database connection:
every lookup reports no record. -/
def noDbLookup : DbLookup := fun _ _ _ => none

/-- A pipeline environment whose rate limiter denies the request and whose
input would otherwise match a forbidden trigger. -/
def envDenied : PipelineEnv :=
  { rateLimiter := some (Except.ok { allowed := false, retry_after := some 30 }),
    translation := none,
    identifyOut := fun s => Except.ok (identify_capability astraCapabilities s),
    safetyOut := fun t c ic =>
      Except.ok (enforce [] astraRefusalLibrary 0 astraCapabilities t c ic),
    rulesOut := fun _ _ _ => Except.ok { allowed := true },
    consentOut := fun u p c => Except.ok (verify_consent noDbLookup [] 0 u p c none).1,
    ragOut := fun _ _ _ => Except.ok none,
    emotionOut := fun _ => Except.ok "calm",
    toneOut := fun _ _ => Except.ok "supportive",
    routeOut := fun _ _ _ _ => Except.ok "I am here to help!",
    sanitizeOut := fun r rules => Except.ok (sanitize r rules),
    applyToneOut := fun r _ => Except.ok r,
    auditId := some "audit-1",
    handoffCta := "Please consult a doctor." }

/-- A pipeline environment whose capability-identification step raises. -/
def envRaise : PipelineEnv :=
  { rateLimiter := none,
    translation := none,
    identifyOut := fun _ => Except.error "boom",
    safetyOut := fun t c ic =>
      Except.ok (enforce [] astraRefusalLibrary 0 astraCapabilities t c ic),
    rulesOut := fun _ _ _ => Except.ok { allowed := true },
    consentOut := fun u p c => Except.ok (verify_consent noDbLookup [] 0 u p c none).1,
    ragOut := fun _ _ _ => Except.ok none,
    emotionOut := fun _ => Except.ok "calm",
    toneOut := fun _ _ => Except.ok "supportive",
    routeOut := fun _ _ _ _ => Except.ok "I am here to help!",
    sanitizeOut := fun r rules => Except.ok (sanitize r rules),
    applyToneOut := fun r _ => Except.ok r,
    auditId := some "audit-2",
    handoffCta := "Please consult a doctor." }

/-- A pipeline environment over a consent manager with no database
attached (`db_connection=None`); every other gate passes. -/
def envNoDb : PipelineEnv :=
  { rateLimiter := none,
    translation := none,
    identifyOut := fun s => Except.ok (identify_capability astraCapabilities s),
    safetyOut := fun t c ic =>
      Except.ok (enforce [] astraRefusalLibrary 0 astraCapabilities t c ic),
    rulesOut := fun _ _ _ => Except.ok { allowed := true },
    consentOut := fun u p c => Except.ok (verify_consent noDbLookup [] 0 u p c none).1,
    ragOut := fun _ _ _ => Except.ok none,
    emotionOut := fun _ => Except.ok "neutral",
    toneOut := fun _ _ => Except.ok "friendly",
    routeOut := fun _ _ _ _ => Except.ok "I am here to help!",
    sanitizeOut := fun r rules => Except.ok (sanitize r rules),
    applyToneOut := fun r _ => Except.ok r,
    auditId := none,
    handoffCta := "Please consult a doctor." }

/-- A store holding a valid `astra_usage` grant and a `document_upload`
record that is both revoked and expired at time 5. -/
def consentDbW : Db :=
  [ (("u", "p", "astra_usage"),
      { id := some "a1", granted_at := some 0, expires_at := some 1000,
        revoked_at := none }),
    (("u", "p", "document_upload"),
      { id := some "d1", granted_at := some 0, expires_at := some 1,
        revoked_at := some 2 }) ]

/-- A store holding only a long-lived `astra_usage` grant. -/
def consentDbAstra : Db :=
  [ (("u", "p", "astra_usage"),
      { id := some "a1", granted_at := some 0, expires_at := some 100000000,
        revoked_at := none }) ]

/-- A memory state for profile `p1` with a stored preference and a stored
doctor instruction. -/
def ragStateW : RAGState :=
  { indexes := [("p1", 2)],
    metadata := [("p1",
      [ (0, { memory_id := "m0", memory_type := "user_preferences",
              content := "likes mild food", created_at := 0, expires_at := 100 }),
        (1, { memory_id := "m1", memory_type := "doctor_instructions",
              content := "take rest", created_at := 0, expires_at := 100 }) ])] }

/-! # Theorems -/

/-! ## Association-list and cache lemmas -/

theorem alookup_ainsert_self {α β : Type} [DecidableEq α]
    (l : List (α × β)) (k : α) (v : β) : alookup (ainsert l k v) k = some v := by
  simp [ainsert, alookup]

theorem alookup_aremove_ne {α β : Type} [DecidableEq α]
    (l : List (α × β)) {k k' : α} (h : k' ≠ k) :
    alookup (aremove l k) k' = alookup l k' := by
  induction l with
  | nil => rfl
  | cons hd tl ih =>
    obtain ⟨a, b⟩ := hd
    by_cases hk : a = k
    · subst hk
      have ha : a ≠ k' := fun e => h e.symm
      simp [aremove, alookup, ha, ih]
    · by_cases he : a = k'
      · simp [aremove, alookup, hk, he, h]
      · simp [aremove, alookup, hk, he, ih]

theorem alookup_aremove_self {α β : Type} [DecidableEq α]
    (l : List (α × β)) (k : α) : alookup (aremove l k) k = none := by
  induction l with
  | nil => rfl
  | cons hd tl ih =>
    obtain ⟨a, b⟩ := hd
    by_cases hk : a = k
    · simp [aremove, alookup, hk, ih]
    · simp [aremove, alookup, hk, ih]

theorem alookup_cons {α β : Type} [DecidableEq α]
    (a : α) (b : β) (l : List (α × β)) (k : α) :
    alookup ((a, b) :: l) k = if a = k then some b else alookup l k := rfl

theorem alookup_ainsert_ne {α β : Type} [DecidableEq α]
    (l : List (α × β)) {k k' : α} (v : β) (h : k' ≠ k) :
    alookup (ainsert l k v) k' = alookup l k' := by
  unfold ainsert
  rw [alookup_cons]
  simp only [Ne.symm h, if_false]
  exact alookup_aremove_ne l h

/-- The cache key builder is injective in the purpose for a fixed user and
profile. -/
theorem ckey_ne_of_ne (u p : String) {x y : String} (h : x ≠ y) :
    ckey u p x ≠ ckey u p y := by
  intro he
  apply h
  have hd := congrArg String.data he
  simp only [ckey, String.data_append] at hd
  exact String.ext (List.append_cancel_left hd)

/-- `verify_astra_consent` either leaves the cache unchanged or inserts
its own (granted) result under the `astra_usage` key. -/
theorem verify_astra_cache_cases (db : DbLookup) (cache : ConsentCache) (now : Nat)
    (u p : String) :
    (verify_astra_consent db cache now u p).2 = cache ∨
    (verify_astra_consent db cache now u p).2
      = ainsert cache (ckey u p "astra_usage")
          (verify_astra_consent db cache now u p).1 := by
  unfold verify_astra_consent
  rcases halo : alookup cache (ckey u p "astra_usage") with _ | cached
  · rcases hdb : db u p "astra_usage" with _ | r
    · simp [halo, hdb]
    · cases hrv : (r.revoked_at.isSome || isExpiredAt r.expires_at now) <;>
        simp [halo, hdb, hrv]
  · cases hexp : isExpiredAt cached.expires_at now
    · simp [halo, hexp]
    · rcases hdb : db u p "astra_usage" with _ | r
      · simp [halo, hexp, hdb]
      · cases hrv : (r.revoked_at.isSome || isExpiredAt r.expires_at now) <;>
          simp [halo, hexp, hdb, hrv]

/-- **C1.**  For every pipeline run of `AstraPipeline.process` — whichever
terminal path is taken (success, rate-limited, safety-blocked,
rules-blocked, consent-required, or an exception raised at any step) —
exactly one audit log entry is persisted via `_save_audit_log` before the
result is returned, and no exception propagates to the caller: whenever
the result carries an error, its user-visible response is the generic
apology. -/
theorem process_audit_once_no_propagation (env : PipelineEnv)
    (user_input user_id profile_id : String) (input_language : Option String) :
    (process env user_input user_id profile_id input_language).2.1 = 1 ∧
    (∀ e, (process env user_input user_id profile_id input_language).1.error = some e →
      (process env user_input user_id profile_id input_language).1.response = apology) := by
  simp only [process]
  repeat' split
  all_goals refine ⟨rfl, fun e h => ?_⟩
  all_goals first
    | rfl
    | exact Option.noConfusion h

/-- **C1 witness.**  A run whose capability step raises: the audit log is
still persisted exactly once and the caller sees the generic apology. -/
theorem process_audit_once_no_propagation_witness :
    (process envRaise "hi" "u1" "p1" none).2.1 = 1 ∧
    (process envRaise "hi" "u1" "p1" none).1.error = some "boom" ∧
    (process envRaise "hi" "u1" "p1" none).1.response = apology := by
  refine ⟨(process_audit_once_no_propagation envRaise "hi" "u1" "p1" none).1, rfl, ?_⟩
  exact (process_audit_once_no_propagation envRaise "hi" "u1" "p1" none).2 "boom" rfl

/-- **C4.**  When the rate-limit check (step 2) denies a request,
`process` returns the rate-limited terminal response immediately and
`identify_capability` is never invoked, whatever the input text. -/
theorem process_rate_limited_short_circuit (env : PipelineEnv)
    (user_input user_id profile_id : String) (input_language : Option String)
    (h : (rateOutcome env).allowed = false) :
    process env user_input user_id profile_id input_language
      = (rateLimitResponse env (rateOutcome env), 1, false) ∧
    (rateLimitResponse env (rateOutcome env)).capability = "RATE_LIMITED" ∧
    (rateLimitResponse env (rateOutcome env)).rate_limit_exceeded = true := by
  refine ⟨?_, rfl, rfl⟩
  unfold process
  simp [h]

/-- **C4 witness.**  A denied request whose text matches both a forbidden
trigger ("prescription for") and an emergency keyword ("chest pain")
still short-circuits at the rate limit with the capability agent
uninvoked. -/
theorem process_rate_limited_short_circuit_witness :
    (rateOutcome envDenied).allowed = false ∧
    process envDenied "chest pain, give me a prescription for it" "u1" "p1" none
      = (rateLimitResponse envDenied (rateOutcome envDenied), 1, false) := by
  refine ⟨rfl, ?_⟩
  exact (process_rate_limited_short_circuit envDenied
    "chest pain, give me a prescription for it" "u1" "p1" none rfl).1

/-- **C2.**  Any input whose normalised text contains an emergency keyword
from the fixed list is classified `EMERGENCY_REDIRECT` / `CLASS_D` with
confidence 1.0, whatever forbidden or trigger matches are also present
(the emergency scan runs first). -/
theorem identify_emergency_priority (input kw : String)
    (hk : kw ∈ emergencyKeywords)
    (hc : containsSubL (stripL (lowerL input.toList)) kw.toList = true) :
    (identify_capability astraCapabilities input).capability = "EMERGENCY_REDIRECT" ∧
    (identify_capability astraCapabilities input).intent_class = "CLASS_D" ∧
    (identify_capability astraCapabilities input).confidence = 1 := by
  have he : isEmergencyText (stripL (lowerL input.toList)) = true := by
    unfold isEmergencyText
    exact List.any_eq_true.mpr ⟨kw, hk, hc⟩
  unfold identify_capability
  simp only [he, if_true]
  exact ⟨rfl, rfl, rfl⟩

/-- **C2 witness.**  An input containing both the emergency keyword
"chest pain" and the forbidden trigger "prescription for" is still
classified as an emergency. -/
theorem identify_emergency_priority_witness :
    ("chest pain" ∈ emergencyKeywords) ∧
    (identify_capability astraCapabilities
      "I have chest pain, give me a prescription for it").capability
        = "EMERGENCY_REDIRECT" ∧
    (identify_capability astraCapabilities
      "I have chest pain, give me a prescription for it").intent_class = "CLASS_D" ∧
    (identify_capability astraCapabilities
      "I have chest pain, give me a prescription for it").confidence = 1 := by
  refine ⟨by decide, ?_⟩
  exact identify_emergency_priority "I have chest pain, give me a prescription for it"
    "chest pain" (by decide) (by decide)

/-- **C3.**  For `CLASS_C` / `CLASS_D` the safety enforcer refuses
unconditionally: `safe = false`, the violation list is the class itself,
no safety-rule pattern is evaluated (the result is independent of the
text), and message / refusal code / handoff / hard stop come from the
refusal-library entry keyed by (class, capability-mapped key), falling
back — for CLASS_D — to the class's `EMERGENCY` entry and finally to the
hard-coded default refusal. -/
theorem enforce_mandatory_refusal (rules : List (String × SafetyRuleDef))
    (lib : RefusalLib) (choose : Nat) (cfg : CapConfig)
    (text text2 capability intent_class : String)
    (h : intent_class = "CLASS_C" ∨ intent_class = "CLASS_D") :
    (enforce rules lib choose cfg text capability intent_class).safe = false ∧
    (enforce rules lib choose cfg text capability intent_class).violations
      = [intent_class] ∧
    (enforce rules lib choose cfg text capability intent_class).blocked_patterns = [] ∧
    enforce rules lib choose cfg text capability intent_class
      = enforce rules lib choose cfg text2 capability intent_class ∧
    (enforce rules lib choose cfg text capability intent_class).message
      = (getRefusalInfo lib choose intent_class capability).message ∧
    (enforce rules lib choose cfg text capability intent_class).refusal_code
      = (getRefusalInfo lib choose intent_class capability).refusal_code ∧
    (enforce rules lib choose cfg text capability intent_class).handoff
      = (getRefusalInfo lib choose intent_class capability).handoff ∧
    (enforce rules lib choose cfg text capability intent_class).hard_stop
      = (getRefusalInfo lib choose intent_class capability).hard_stop ∧
    (∀ k d, capToRefusal capability = some k →
       alookup ((alookup lib intent_class).getD []) k = some d →
       (enforce rules lib choose cfg text capability intent_class).refusal_code
           = d.refusal_code.getD "REF_UNKNOWN" ∧
       (enforce rules lib choose cfg text capability intent_class).handoff = d.handoff ∧
       (enforce rules lib choose cfg text capability intent_class).hard_stop
           = d.hard_stop) ∧
    ((capToRefusal capability).bind
        (fun k => alookup ((alookup lib intent_class).getD []) k) = none →
      intent_class = "CLASS_D" →
      ∀ d, alookup ((alookup lib intent_class).getD []) "EMERGENCY" = some d →
        (enforce rules lib choose cfg text capability intent_class).refusal_code
            = d.refusal_code.getD "REF_UNKNOWN" ∧
        (enforce rules lib choose cfg text capability intent_class).handoff
            = d.handoff ∧
        (enforce rules lib choose cfg text capability intent_class).hard_stop
            = d.hard_stop) ∧
    (resolveRefusalData lib intent_class capability = none →
      (enforce rules lib choose cfg text capability intent_class).message
          = defaultRefusal.message ∧
      (enforce rules lib choose cfg text capability intent_class).refusal_code
          = "REF_GEN_001" ∧
      (enforce rules lib choose cfg text capability intent_class).handoff = true ∧
      (enforce rules lib choose cfg text capability intent_class).hard_stop = false) ∧
    (∀ d l, resolveRefusalData lib intent_class capability = some d →
      d.messages = some l → l ≠ [] →
      (enforce rules lib choose cfg text capability intent_class).message ∈ l) := by
  have hb : (intent_class == "CLASS_C" || intent_class == "CLASS_D") = true := by
    rcases h with h | h <;> simp [h]
  have hE : ∀ t, enforce rules lib choose cfg t capability intent_class =
      { safe := false, violations := [intent_class],
        message := (getRefusalInfo lib choose intent_class capability).message,
        blocked_patterns := [], intent_class := intent_class,
        handoff := (getRefusalInfo lib choose intent_class capability).handoff,
        hard_stop := (getRefusalInfo lib choose intent_class capability).hard_stop,
        refusal_code := (getRefusalInfo lib choose intent_class capability).refusal_code } := by
    intro t
    unfold enforce
    rw [hb]
    rfl
  refine ⟨by rw [hE], by rw [hE], by rw [hE], by rw [hE text, hE text2],
    by rw [hE], by rw [hE], by rw [hE], by rw [hE], ?_, ?_, ?_, ?_⟩
  · intro k d hk hd
    rw [hE]
    refine ⟨?_, ?_, ?_⟩ <;>
      simp [getRefusalInfo, resolveRefusalData, hk, hd]
  · intro hnone hd4 d hem
    subst hd4
    rw [hE]
    refine ⟨?_, ?_, ?_⟩ <;>
      simp [getRefusalInfo, resolveRefusalData, hnone, hem]
  · intro hres
    rw [hE]
    refine ⟨?_, ?_, ?_, ?_⟩ <;> simp [getRefusalInfo, hres, defaultRefusal]
  · intro d l hres hmsgs hne
    rw [hE]
    have hlen : choose % l.length < l.length :=
      Nat.mod_lt _ (List.length_pos.mpr hne)
    simp only [getRefusalInfo, hres, hmsgs, Option.getD_some, pickMessage,
      List.get?_eq_getElem?, List.getElem?_eq_getElem hlen, Option.getD_some]
    exact List.getElem_mem hlen

/-- **C3 witness.**  `CLASS_D` with capability `EMERGENCY_REDIRECT` over
the modelled refusal library refuses with the library's emergency
entry. -/
theorem enforce_mandatory_refusal_witness :
    ("CLASS_D" = "CLASS_C" ∨ ("CLASS_D" : String) = "CLASS_D") ∧
    (enforce [] astraRefusalLibrary 0 astraCapabilities "any text"
      "EMERGENCY_REDIRECT" "CLASS_D").safe = false ∧
    (enforce [] astraRefusalLibrary 0 astraCapabilities "any text"
      "EMERGENCY_REDIRECT" "CLASS_D").refusal_code = "REF_D_EMERG_001" ∧
    (enforce [] astraRefusalLibrary 0 astraCapabilities "any text"
      "EMERGENCY_REDIRECT" "CLASS_D").hard_stop = true := by
  refine ⟨Or.inr rfl, ?_, rfl, rfl⟩
  exact (enforce_mandatory_refusal [] astraRefusalLibrary 0 astraCapabilities
    "any text" "other text" "EMERGENCY_REDIRECT" "CLASS_D" (Or.inr rfl)).1

/-- **C5.**  `verify_consent` verifies the mandatory `astra_usage` purpose
first and any failure of it short-circuits the result regardless of
capability; a capability with no entry in the capability→purpose map is
granted on `astra_usage` alone; otherwise, on a purpose-cache miss, the
record is evaluated in the order no-record → NOT_REQUESTED, revoked →
REVOKED, expired → EXPIRED, else GRANTED with the result cached — in
particular a record both revoked and expired reports REVOKED. -/
theorem verify_consent_spec (db : DbLookup) (cache : ConsentCache) (now : Nat)
    (user_id profile_id capability : String) (purposeArg : Option String) :
    ((verify_astra_consent db cache now user_id profile_id).1.granted = false →
      verify_consent db cache now user_id profile_id capability purposeArg
        = verify_astra_consent db cache now user_id profile_id) ∧
    ((verify_astra_consent db cache now user_id profile_id).1.granted = true →
      purposeArg = none → map_capability_to_purpose capability = none →
      (verify_consent db cache now user_id profile_id capability purposeArg).1.granted
          = true ∧
      (verify_consent db cache now user_id profile_id capability purposeArg).1.purpose
          = "astra_usage" ∧
      (verify_consent db cache now user_id profile_id capability purposeArg).2
          = (verify_astra_consent db cache now user_id profile_id).2) ∧
    (∀ purpose,
      (verify_astra_consent db cache now user_id profile_id).1.granted = true →
      purposeArg.or (map_capability_to_purpose capability) = some purpose →
      alookup (verify_astra_consent db cache now user_id profile_id).2
        (ckey user_id profile_id purpose) = none →
      (db user_id profile_id purpose = none →
        (verify_consent db cache now user_id profile_id capability
          purposeArg).1.granted = false ∧
        (verify_consent db cache now user_id profile_id capability
          purposeArg).1.status = "not_requested") ∧
      (∀ r, db user_id profile_id purpose = some r → r.revoked_at.isSome = true →
        (verify_consent db cache now user_id profile_id capability
          purposeArg).1.granted = false ∧
        (verify_consent db cache now user_id profile_id capability
          purposeArg).1.status = "revoked") ∧
      (∀ r, db user_id profile_id purpose = some r → r.revoked_at = none →
        isExpiredAt r.expires_at now = true →
        (verify_consent db cache now user_id profile_id capability
          purposeArg).1.granted = false ∧
        (verify_consent db cache now user_id profile_id capability
          purposeArg).1.status = "expired") ∧
      (∀ r, db user_id profile_id purpose = some r → r.revoked_at = none →
        isExpiredAt r.expires_at now = false →
        (verify_consent db cache now user_id profile_id capability
          purposeArg).1.granted = true ∧
        (verify_consent db cache now user_id profile_id capability
          purposeArg).1.status = "granted" ∧
        (verify_consent db cache now user_id profile_id capability purposeArg).2
          = ainsert (verify_astra_consent db cache now user_id profile_id).2
              (ckey user_id profile_id purpose)
              (verify_consent db cache now user_id profile_id capability
                purposeArg).1)) := by
  refine ⟨?_, ?_, ?_⟩
  · intro hg
    unfold verify_consent
    simp [hg]
  · intro hg hpa hmap
    unfold verify_consent
    simp [hg, hpa, hmap]
  · intro purpose hg hp hmiss
    refine ⟨?_, ?_, ?_, ?_⟩
    · intro hdb
      unfold verify_consent
      simp [hg, hp, hmiss, hdb]
    · intro r hdb hrv
      unfold verify_consent
      simp [hg, hp, hmiss, hdb, hrv]
    · intro r hdb hrv hexp
      unfold verify_consent
      simp [hg, hp, hmiss, hdb, hrv, hexp]
    · intro r hdb hrv hexp
      unfold verify_consent
      simp [hg, hp, hmiss, hdb, hrv, hexp]

/-- **C5 witness.**  On a store where `astra_usage` is valid and the
`document_upload` record is both revoked and expired, verifying
`DOCUMENT_INTERPRETATION` (mapped purpose `document_upload`) at time 5
reports `granted = false` with status REVOKED. -/
theorem verify_consent_spec_witness :
    (verify_astra_consent (dbGet consentDbW) [] 5 "u" "p").1.granted = true ∧
    (verify_consent (dbGet consentDbW) [] 5 "u" "p" "DOCUMENT_INTERPRETATION"
      none).1.granted = false ∧
    (verify_consent (dbGet consentDbW) [] 5 "u" "p" "DOCUMENT_INTERPRETATION"
      none).1.status = "revoked" := by
  refine ⟨rfl, ?_⟩
  exact ((verify_consent_spec (dbGet consentDbW) [] 5 "u" "p"
      "DOCUMENT_INTERPRETATION" none).2.2 "document_upload" rfl rfl (by rfl)).2.1
    { id := some "d1", granted_at := some 0, expires_at := some 1,
      revoked_at := some 2 } rfl rfl

/-- **C9 counterexample.**  On a fresh manager, granting and then revoking
`document_upload` (and nothing else) makes `verify_consent` for that
purpose report status NOT_REQUESTED — the mandatory `astra_usage` gate
fails first — not REVOKED as the claim states. -/
theorem consent_revoked_claim_counterexample :
    (verify_consent
      (dbGet (revoke_consent (grant_consent [] [] 0 "u" "p" "document_upload" 365).2.1
        (grant_consent [] [] 0 "u" "p" "document_upload" 365).2.2
        1 "u" "p" "document_upload").2.1)
      (revoke_consent (grant_consent [] [] 0 "u" "p" "document_upload" 365).2.1
        (grant_consent [] [] 0 "u" "p" "document_upload" 365).2.2
        1 "u" "p" "document_upload").2.2
      2 "u" "p" "DOCUMENT_INTERPRETATION" (some "document_upload")).1.status
        = "not_requested" ∧
    ((verify_consent
      (dbGet (revoke_consent (grant_consent [] [] 0 "u" "p" "document_upload" 365).2.1
        (grant_consent [] [] 0 "u" "p" "document_upload" 365).2.2
        1 "u" "p" "document_upload").2.1)
      (revoke_consent (grant_consent [] [] 0 "u" "p" "document_upload" 365).2.1
        (grant_consent [] [] 0 "u" "p" "document_upload" 365).2.2
        1 "u" "p" "document_upload").2.2
      2 "u" "p" "DOCUMENT_INTERPRETATION" (some "document_upload")).1.status
        == "revoked") = false ∧
    (verify_consent
      (dbGet (revoke_consent (grant_consent [] [] 0 "u" "p" "document_upload" 365).2.1
        (grant_consent [] [] 0 "u" "p" "document_upload" 365).2.2
        1 "u" "p" "document_upload").2.1)
      (revoke_consent (grant_consent [] [] 0 "u" "p" "document_upload" 365).2.1
        (grant_consent [] [] 0 "u" "p" "document_upload" 365).2.2
        1 "u" "p" "document_upload").2.2
      2 "u" "p" "DOCUMENT_INTERPRETATION" (some "document_upload")).1.granted
        = false := by
  exact ⟨rfl, by decide, rfl⟩

/-- **C9 (amended).**  Starting from a fresh cache: grant followed by
revoke of the same (user, profile, purpose) makes `verify_consent` for
that purpose report `granted = false` with status REVOKED, and a grant
with `duration_days = 0` verified after the clock has advanced past the
grant instant reports EXPIRED, not GRANTED — provided the purpose is
`astra_usage` itself or the mandatory `astra_usage` consent is otherwise
valid at verification time. -/
theorem consent_revoke_expire_amended (db : Db) (u p purpose capability : String)
    (t0 t1 t2 dur : Nat) :
    ((purpose = "astra_usage" ∨
       (purpose ≠ "astra_usage" ∧
        (verify_astra_consent
          (dbGet (revoke_consent (grant_consent db [] t0 u p purpose dur).2.1
            (grant_consent db [] t0 u p purpose dur).2.2 t1 u p purpose).2.1)
          (revoke_consent (grant_consent db [] t0 u p purpose dur).2.1
            (grant_consent db [] t0 u p purpose dur).2.2 t1 u p purpose).2.2
          t2 u p).1.granted = true)) →
      (verify_consent
        (dbGet (revoke_consent (grant_consent db [] t0 u p purpose dur).2.1
          (grant_consent db [] t0 u p purpose dur).2.2 t1 u p purpose).2.1)
        (revoke_consent (grant_consent db [] t0 u p purpose dur).2.1
          (grant_consent db [] t0 u p purpose dur).2.2 t1 u p purpose).2.2
        t2 u p capability (some purpose)).1.granted = false ∧
      (verify_consent
        (dbGet (revoke_consent (grant_consent db [] t0 u p purpose dur).2.1
          (grant_consent db [] t0 u p purpose dur).2.2 t1 u p purpose).2.1)
        (revoke_consent (grant_consent db [] t0 u p purpose dur).2.1
          (grant_consent db [] t0 u p purpose dur).2.2 t1 u p purpose).2.2
        t2 u p capability (some purpose)).1.status = "revoked") ∧
    (t2 > t0 →
      (purpose = "astra_usage" ∨
       (purpose ≠ "astra_usage" ∧
        (verify_astra_consent
          (dbGet (grant_consent db [] t0 u p purpose 0).2.1)
          (grant_consent db [] t0 u p purpose 0).2.2 t2 u p).1.granted = true)) →
      (verify_consent (dbGet (grant_consent db [] t0 u p purpose 0).2.1)
        (grant_consent db [] t0 u p purpose 0).2.2
        t2 u p capability (some purpose)).1.granted = false ∧
      (verify_consent (dbGet (grant_consent db [] t0 u p purpose 0).2.1)
        (grant_consent db [] t0 u p purpose 0).2.2
        t2 u p capability (some purpose)).1.status = "expired") := by
  have hg1 : (grant_consent db [] t0 u p purpose dur).2.1
      = ainsert db (u, p, purpose)
          { id := some ("consent:" ++ ckey u p purpose), granted_at := some t0,
            expires_at := some (t0 + dur * 86400), revoked_at := none,
            is_active := true } := rfl
  have hg2 : (grant_consent db [] t0 u p purpose dur).2.2 = [] := rfl
  have hrv1 : (revoke_consent (grant_consent db [] t0 u p purpose dur).2.1
      (grant_consent db [] t0 u p purpose dur).2.2 t1 u p purpose).2.1
      = ainsert (grant_consent db [] t0 u p purpose dur).2.1 (u, p, purpose)
          { id := some ("consent:" ++ ckey u p purpose), granted_at := some t0,
            expires_at := some (t0 + dur * 86400), revoked_at := some t1,
            is_active := false } := by
    unfold revoke_consent dbRevoke
    rw [hg1, alookup_ainsert_self]
  have hrv2 : (revoke_consent (grant_consent db [] t0 u p purpose dur).2.1
      (grant_consent db [] t0 u p purpose dur).2.2 t1 u p purpose).2.2 = [] := by
    unfold revoke_consent dbRevoke
    rw [hg1, alookup_ainsert_self, hg2]
    rfl
  have hdbrv : dbGet (revoke_consent (grant_consent db [] t0 u p purpose dur).2.1
      (grant_consent db [] t0 u p purpose dur).2.2 t1 u p purpose).2.1 u p purpose
      = some { id := some ("consent:" ++ ckey u p purpose), granted_at := some t0,
               expires_at := some (t0 + dur * 86400), revoked_at := some t1,
               is_active := false } := by
    unfold dbGet
    rw [hrv1]
    exact alookup_ainsert_self _ _ _
  constructor
  · rintro (hpurp | ⟨hne, hga⟩)
    · subst hpurp
      unfold verify_consent verify_astra_consent
      rw [hrv2]
      simp [alookup, hdbrv]
    · have hmiss : alookup (verify_astra_consent
          (dbGet (revoke_consent (grant_consent db [] t0 u p purpose dur).2.1
            (grant_consent db [] t0 u p purpose dur).2.2 t1 u p purpose).2.1)
          (revoke_consent (grant_consent db [] t0 u p purpose dur).2.1
            (grant_consent db [] t0 u p purpose dur).2.2 t1 u p purpose).2.2
          t2 u p).2 (ckey u p purpose) = none := by
        rcases verify_astra_cache_cases
          (dbGet (revoke_consent (grant_consent db [] t0 u p purpose dur).2.1
            (grant_consent db [] t0 u p purpose dur).2.2 t1 u p purpose).2.1)
          (revoke_consent (grant_consent db [] t0 u p purpose dur).2.1
            (grant_consent db [] t0 u p purpose dur).2.2 t1 u p purpose).2.2
          t2 u p with hc | hc
        · rw [hc, hrv2]; rfl
        · rw [hc, alookup_ainsert_ne _ _ (ckey_ne_of_ne u p hne), hrv2]; rfl
      unfold verify_consent
      simp [hga, hmiss, hdbrv]
  · intro ht
    have hg1z : (grant_consent db [] t0 u p purpose 0).2.1
        = ainsert db (u, p, purpose)
            { id := some ("consent:" ++ ckey u p purpose), granted_at := some t0,
              expires_at := some (t0 + 0 * 86400), revoked_at := none,
              is_active := true } := rfl
    have hg2z : (grant_consent db [] t0 u p purpose 0).2.2 = [] := rfl
    have hdbz : dbGet (grant_consent db [] t0 u p purpose 0).2.1 u p purpose
        = some { id := some ("consent:" ++ ckey u p purpose), granted_at := some t0,
                 expires_at := some (t0 + 0 * 86400), revoked_at := none,
                 is_active := true } := by
      unfold dbGet
      rw [hg1z]
      exact alookup_ainsert_self _ _ _
    have hexp : isExpiredAt (some (t0 + 0 * 86400)) t2 = true := by
      simp [isExpiredAt]
      omega
    simp only [Nat.zero_mul, Nat.add_zero] at hexp
    rintro (hpurp | ⟨hne, hga⟩)
    · subst hpurp
      unfold verify_consent verify_astra_consent
      rw [hg2z]
      simp [alookup, hdbz, hexp]
    · have hmiss : alookup (verify_astra_consent
          (dbGet (grant_consent db [] t0 u p purpose 0).2.1)
          (grant_consent db [] t0 u p purpose 0).2.2 t2 u p).2
          (ckey u p purpose) = none := by
        rcases verify_astra_cache_cases
          (dbGet (grant_consent db [] t0 u p purpose 0).2.1)
          (grant_consent db [] t0 u p purpose 0).2.2 t2 u p with hc | hc
        · rw [hc, hg2z]; rfl
        · rw [hc, alookup_ainsert_ne _ _ (ckey_ne_of_ne u p hne), hg2z]; rfl
      unfold verify_consent
      simp [hga, hmiss, hdbz, hexp]

/-- **C9 (amended) witness.**  Over a store with a valid `astra_usage`
grant: grant-then-revoke of `document_upload` verifies as REVOKED, and a
zero-duration grant verified one tick later as EXPIRED. -/
theorem consent_revoke_expire_amended_witness :
    (verify_consent
      (dbGet (revoke_consent
        (grant_consent consentDbAstra [] 0 "u" "p" "document_upload" 365).2.1
        (grant_consent consentDbAstra [] 0 "u" "p" "document_upload" 365).2.2
        1 "u" "p" "document_upload").2.1)
      (revoke_consent
        (grant_consent consentDbAstra [] 0 "u" "p" "document_upload" 365).2.1
        (grant_consent consentDbAstra [] 0 "u" "p" "document_upload" 365).2.2
        1 "u" "p" "document_upload").2.2
      2 "u" "p" "DOCUMENT_INTERPRETATION" (some "document_upload")).1.status
        = "revoked" ∧
    (verify_consent
      (dbGet (grant_consent consentDbAstra [] 0 "u" "p" "document_upload" 0).2.1)
      (grant_consent consentDbAstra [] 0 "u" "p" "document_upload" 0).2.2
      2 "u" "p" "DOCUMENT_INTERPRETATION" (some "document_upload")).1.status
        = "expired" := by
  constructor
  · exact ((consent_revoke_expire_amended consentDbAstra "u" "p" "document_upload"
      "DOCUMENT_INTERPRETATION" 0 1 2 365).1 (Or.inr ⟨by decide, rfl⟩)).2
  · exact ((consent_revoke_expire_amended consentDbAstra "u" "p" "document_upload"
      "DOCUMENT_INTERPRETATION" 0 1 2 365).2 (by decide)
      (Or.inr ⟨by decide, rfl⟩)).2

/-- **C10.**  With no persistence store attached (`db_connection=None`),
`verify_consent` on a fresh manager reports `granted = false` with status
NOT_REQUESTED for every (user, profile, capability), caches nothing, and
every pipeline run that reaches the consent step (rate limit passed,
capability identified, safety and rules gates passed) terminates with a
consent-required response. -/
theorem verify_consent_no_db (now : Nat) (user_id profile_id capability : String)
    (purposeArg : Option String) :
    (verify_consent noDbLookup [] now user_id profile_id capability
      purposeArg).1.granted = false ∧
    (verify_consent noDbLookup [] now user_id profile_id capability
      purposeArg).1.status = "not_requested" ∧
    (verify_consent noDbLookup [] now user_id profile_id capability
      purposeArg).1.purpose = "astra_usage" ∧
    (verify_consent noDbLookup [] now user_id profile_id capability
      purposeArg).2 = [] ∧
    (∀ (env : PipelineEnv) (ui uid pid : String) (il : Option String)
        (capr : CapResult) (sc : SafetyResult) (ru : RulesResult),
      (rateOutcome env).allowed = true →
      env.identifyOut (normalizeOutcome env ui (detectedLanguage env il))
        = Except.ok capr →
      env.safetyOut (normalizeOutcome env ui (detectedLanguage env il))
        capr.capability capr.intent_class = Except.ok sc →
      sc.safe = true →
      env.rulesOut capr.capability (normalizeOutcome env ui (detectedLanguage env il))
        capr.intent_class = Except.ok ru →
      ru.allowed = true →
      env.consentOut uid pid capr.capability
        = Except.ok (verify_consent noDbLookup [] now uid pid capr.capability none).1 →
      (process env ui uid pid il).1.capability = "CONSENT_REQUIRED" ∧
      (process env ui uid pid il).1.consent_required = true) := by
  refine ⟨rfl, rfl, rfl, rfl, ?_⟩
  intro env ui uid pid il capr sc ru hrate hid hsafe hsafeok hrules hallow hcons
  have hng : (verify_consent noDbLookup [] now uid pid capr.capability none).1.granted
      = false := rfl
  unfold process
  simp only [hrate, Bool.not_true, hid, hsafe, hsafeok, hrules, hallow, hcons, hng,
    Bool.not_false, if_false, if_true]
  exact ⟨rfl, rfl⟩

/-- **C10 witness.**  A concrete no-database pipeline run ends
consent-required. -/
theorem verify_consent_no_db_witness :
    (verify_consent noDbLookup [] 0 "u1" "p1" "GENERAL_WELLNESS_CHAT"
      none).1.granted = false ∧
    (process envNoDb "hello there" "u1" "p1" none).1.capability
      = "CONSENT_REQUIRED" ∧
    (process envNoDb "hello there" "u1" "p1" none).1.consent_required = true := by
  refine ⟨(verify_consent_no_db 0 "u1" "p1" "GENERAL_WELLNESS_CHAT" none).1, ?_⟩
  exact (verify_consent_no_db 0 "u1" "p1" "GENERAL_WELLNESS_CHAT" none).2.2.2.2
    envNoDb "hello there" "u1" "p1" none
    (identify_capability astraCapabilities "hello there")
    (enforce [] astraRefusalLibrary 0 astraCapabilities "hello there"
      (identify_capability astraCapabilities "hello there").capability
      (identify_capability astraCapabilities "hello there").intent_class)
    { allowed := true }
    rfl rfl rfl (by decide) rfl rfl rfl

/-- **C6.**  A memory type outside the fixed allow-list — in particular
every deny-list value — is rejected at write (`success = false`,
`memory_id = none`, the state left untouched) and at read (`retrieve`
returns `None` whatever the state and whatever the index search would
have returned). -/
theorem memory_type_gate (st : RAGState) (now : Nat)
    (profile_id memory_type content : String) (ttl_days : Nat)
    (searchOut : List (ℚ × Int)) (thr : ℚ)
    (h : memory_type ∉ allowedMemoryTypes) :
    store_memory st now profile_id memory_type content ttl_days
      = ({ success := false, memory_id := none, memory_type := memory_type,
           expires_at := none,
           message := "Memory type \x27" ++ memory_type ++ "\x27 is not allowed" },
         st) ∧
    retrieve st searchOut memory_type profile_id thr now = none := by
  have ha : is_allowed_memory_type memory_type = false := by
    unfold is_allowed_memory_type
    split
    · rfl
    · cases hc : allowedMemoryTypes.contains memory_type
      · rfl
      · exact absurd (List.elem_iff.mp hc) h
  constructor
  · unfold store_memory
    rw [ha]
    rfl
  · unfold retrieve
    rw [ha]
    rfl

/-- **C6 witness.**  Storing the deny-list type `diagnosis_progress`
fails and persists nothing; retrieving it yields `None`. -/
theorem memory_type_gate_witness :
    ("diagnosis_progress" ∉ allowedMemoryTypes) ∧
    (store_memory ragStateW 5 "p1" "diagnosis_progress" "bp improving" 90).1.success
      = false ∧
    (store_memory ragStateW 5 "p1" "diagnosis_progress" "bp improving" 90).1.memory_id
      = none ∧
    (store_memory ragStateW 5 "p1" "diagnosis_progress" "bp improving" 90).2
      = ragStateW ∧
    retrieve ragStateW [(0, 0)] "diagnosis_progress" "p1" (7/10) 5 = none := by
  have h := memory_type_gate ragStateW 5 "p1" "diagnosis_progress" "bp improving" 90
    [(0, 0)] (7/10) (by decide)
  exact ⟨by decide, by rw [h.1], by rw [h.1], by rw [h.1], h.2⟩

/-- **C7.**  Every hit contributing to a retrieved context comes from the
queried profile's metadata only, has the requested memory type, is not
expired, and has similarity `1/(1 + distance)` at least the threshold
for one of the index's returned rows; the surviving contents are joined
in index return order by blank lines, and `None` is returned exactly
when no record survives. -/
theorem retrieve_filter_spec (st : RAGState) (profile_id : String)
    (searchOut : List (ℚ × Int)) (context_type : String) (thr : ℚ) (now : Nat)
    (hallow : is_allowed_memory_type context_type = true) :
    (∀ hit ∈ search_faiss st profile_id searchOut context_type thr now,
      ∃ idx m, alookup ((alookup st.metadata profile_id).getD []) idx = some m ∧
        m.memory_type = context_type ∧ ¬ now > m.expires_at ∧
        hit.content = m.content ∧ hit.memory_id = m.memory_id ∧
        ∃ d, (d, idx) ∈ searchOut ∧ (idx == -1) = false ∧
          hit.similarity = 1 / (1 + d) ∧ thr ≤ 1 / (1 + d)) ∧
    (retrieve st searchOut context_type profile_id thr now = none ↔
      search_faiss st profile_id searchOut context_type thr now = []) ∧
    (search_faiss st profile_id searchOut context_type thr now ≠ [] →
      retrieve st searchOut context_type profile_id thr now
        = some (String.intercalate "\n\n"
            ((search_faiss st profile_id searchOut context_type thr now).map
              (fun r => r.content)))) := by
  refine ⟨?_, ?_, ?_⟩
  · intro hit hmem
    unfold search_faiss at hmem
    rcases hidx : alookup st.indexes profile_id with _ | n
    · rw [hidx] at hmem
      simp at hmem
    · rw [hidx] at hmem
      simp only [List.mem_filterMap] at hmem
      obtain ⟨⟨d, idx⟩, hin, hf⟩ := hmem
      dsimp only at hf
      by_cases hneg : (idx == -1) = true
      · rw [if_pos hneg] at hf
        exact absurd hf (by simp)
      · rw [if_neg hneg] at hf
        by_cases hsim : (1 / (1 + d) < thr)
        · rw [if_pos hsim] at hf
          exact absurd hf (by simp)
        · rw [if_neg hsim] at hf
          rcases hmeta : alookup ((alookup st.metadata profile_id).getD []) idx
            with _ | m
          · rw [hmeta] at hf
            exact absurd hf (by simp)
          · rw [hmeta] at hf
            dsimp only at hf
            by_cases hmt : m.memory_type ≠ context_type
            · rw [if_pos hmt] at hf
              exact absurd hf (by simp)
            · rw [if_neg hmt] at hf
              by_cases hexp : now > m.expires_at
              · rw [if_pos hexp] at hf
                exact absurd hf (by simp)
              · rw [if_neg hexp] at hf
                obtain rfl := Option.some.inj hf
                exact ⟨idx, m, hmeta, not_not.mp hmt, hexp, rfl, rfl, d, hin,
                  Bool.eq_false_iff.mpr (fun e => hneg e), rfl, not_lt.mp hsim⟩
  · unfold retrieve
    rw [hallow]
    by_cases hres : search_faiss st profile_id searchOut context_type thr now = []
    · simp [hres]
    · simp [hres, List.isEmpty_iff]
  · intro hne
    unfold retrieve
    rw [hallow]
    simp [List.isEmpty_iff, hne]

/-- **C7 witness.**  Over a profile with a matching unexpired preference
(distance 0, similarity 1) and a second row filtered out by the
threshold, `retrieve` returns exactly the surviving content. -/
theorem retrieve_filter_spec_witness :
    is_allowed_memory_type "user_preferences" = true ∧
    search_faiss ragStateW "p1" [(0, 0), (3, 1)] "user_preferences" (7/10) 5 ≠ [] ∧
    retrieve ragStateW [(0, 0), (3, 1)] "user_preferences" "p1" (7/10) 5
      = some "likes mild food" := by
  have hs : search_faiss ragStateW "p1" [(0, 0), (3, 1)] "user_preferences" (7/10) 5
      = [{ content := "likes mild food", similarity := 1 / (1 + 0),
           memory_id := "m0" }] := by
    unfold search_faiss ragStateW
    norm_num [alookup, List.filterMap_cons]
  have hne : search_faiss ragStateW "p1" [(0, 0), (3, 1)] "user_preferences"
      (7/10) 5 ≠ [] := by
    rw [hs]
    exact List.cons_ne_nil _ _
  refine ⟨rfl, hne, ?_⟩
  have h := (retrieve_filter_spec ragStateW "p1" [(0, 0), (3, 1)]
    "user_preferences" (7/10) 5 rfl).2.2 hne
  rw [h, hs]
  rfl

/-- **C8 (code bug).**  `ResponseSanitizer.sanitize` is not idempotent:
at `response = ""` with `safety_rules = ["must_recommend_doctor"]` the
first call appends the medical-advice disclaimer, and the second call
rewrites that disclaimer (its "This is not" matches the diagnosis
pattern `\b(you have|...|this is)\s+\w+`) and then appends the
disclaimer a second time, so the second call is not a no-op. -/
theorem sanitize_second_pass_changes_output :
    (sanitize (sanitize "" ["must_recommend_doctor"]) ["must_recommend_doctor"]
      == sanitize "" ["must_recommend_doctor"]) = false ∧
    sanitize "" ["must_recommend_doctor"] = medicalAdviceDisc ∧
    sanitize (sanitize "" ["must_recommend_doctor"]) ["must_recommend_doctor"]
      = "\n\n⚠️ Please consult a doctor for proper diagnosis. medical advice. Please consult a licensed healthcare professional."
        ++ medicalAdviceDisc := by
  refine ⟨by decide, rfl, rfl⟩

end Astra
